import Mathlib

/-!
Shallow embedding of `src/CopyTextStyle.py` (Text+ Style Copier, v10).

The script runs against the DaVinci Resolve / Fusion scripting API.  The host
API objects (resolve handle, project, timeline, timeline items, fusion
compositions, tools) are modelled as plain Lean structures whose fields record
exactly the observable behaviour the script depends on: which accessor methods
exist on a tool, what they return (or whether invoking them raises), what a
setter call does to the text field of a tool, and so on.  Python dictionaries
(the settings snapshots) are modelled by the dynamic value type `Val` below;
dictionary entries keep Python insertion order.

Python exceptions are modelled with `Except String`; an exception that the
script swallows is handled at the corresponding point of the embedding, and an
exception that escapes a function is an `Except.error` result.
-/

mutual
/-- Dynamic value, modelling the Python values that travel through the script:
strings, numbers, `None`, and (ordered) dictionaries keyed by strings. -/
inductive Val where
  | str : String → Val
  | num : Int → Val
  | null : Val
  | dict : ValEntries → Val
deriving DecidableEq, Repr

/-- Ordered association list of dictionary entries (Python dicts preserve
insertion order; a dict built by the Python runtime has no duplicate keys). -/
inductive ValEntries where
  | nil : ValEntries
  | cons : String → Val → ValEntries → ValEntries
deriving DecidableEq, Repr
end

/-- Number of top-level entries: Python `len(d)` / `len(d.keys())`. -/
def ValEntries.length : ValEntries → Nat
  | .nil => 0
  | .cons _ _ rest => 1 + rest.length

/-- Python `k in d` on a dict. -/
def ValEntries.containsKey : ValEntries → String → Bool
  | .nil, _ => false
  | .cons k _ rest, key => if k = key then true else rest.containsKey key

/-- Python `d[k]` read access (first occurrence wins; a real Python dict has
no duplicate keys, so this is exact). -/
def ValEntries.lookup : ValEntries → String → Option Val
  | .nil, _ => none
  | .cons k v rest, key => if k = key then some v else rest.lookup key

/-- Python `d[k] = v`: overwrite in place when the key exists, otherwise
append at the end (insertion order semantics). -/
def ValEntries.insert : ValEntries → String → Val → ValEntries
  | .nil, key, v => .cons key v .nil
  | .cons k v0 rest, key, v =>
      if k = key then .cons k v rest else .cons k v0 (rest.insert key v)

/-- Python `del d[k]`: remove the (first) entry with the given key. -/
def ValEntries.remove : ValEntries → String → ValEntries
  | .nil, _ => .nil
  | .cons k v rest, key => if k = key then rest else .cons k v (rest.remove key)

/-- The list of keys, in order. -/
def ValEntries.keys : ValEntries → List String
  | .nil => []
  | .cons k _ rest => k :: rest.keys

/-- Outcome of probing one named accessor method on a tool: the attribute may
be missing (`getattr` returned `None`), invoking it may raise, or it returns a
value.  (Source lines 64-73.) -/
inductive Probe where
  | missing : Probe
  | raises : Probe
  | returns : Val → Probe
deriving DecidableEq, Repr

/-- What one invocation of a settings setter (`LoadSettings` / `SetSettings`)
on a given tool does to the host: the text field the tool ends up with
(the style application may overwrite or clear the text), and whether the call
raises.  A raising call may already have mutated the tool (`newText` is the
state it leaves behind); nothing is rolled back. -/
structure SetterEffect where
  newText : Option String
  raises : Bool
deriving DecidableEq, Repr

/-- A Fusion tool node as the script observes it.  `styledText` is the value
`GetInput("StyledText")` returns (`none` models Python `None`, i.e. the text
payload being unreadable).  The three `Probe` fields model the three settings
accessors probed by `get_tool_settings`; `hasSetSettings` / `hasLoadSettings`
model `hasattr` on the two setters, with their invocation behaviour given by
`setEff` / `loadEff`; `setInputRaises` tells whether
`SetInput("StyledText", ...)` raises. -/
structure Tool where
  name : String
  styledText : Option String
  getSettingsP : Probe
  saveSettingsP : Probe
  getCurrentSettingsP : Probe
  hasSetSettings : Bool
  hasLoadSettings : Bool
  setEff : SetterEffect
  loadEff : SetterEffect
  setInputRaises : Bool
deriving DecidableEq, Repr

/-- The acceptance heuristic of `get_tool_settings` (source lines 75-77):
the probed result is kept iff it is a dict, non-empty, and has an `Inputs`
key, or a `Tools` key, or more than five top-level keys. -/
def settingsAcceptable : Val → Bool
  | .dict d =>
      d.length > 0 &&
        (d.containsKey "Inputs" || d.containsKey "Tools" || d.length > 5)
  | _ => false

/-- One candidate of the probing loop (source lines 70-80): a missing method
is skipped, a raising invocation is swallowed and skipped, and a returned
value is kept only when `settingsAcceptable` holds. -/
def probeStep : Probe → Option Val
  | .returns v => if settingsAcceptable v then some v else none
  | _ => none

/-- `get_tool_settings` (source lines 60-81): probe `GetSettings`,
`SaveSettings`, `GetCurrentSettings` in this order and return the first
accepted result together with the accessor name; `none` models the Python
`(None, None)` failure return. -/
def get_tool_settings (tool : Tool) : Option (Val × String) :=
  match probeStep tool.getSettingsP with
  | some v => some (v, "GetSettings")
  | none =>
      match probeStep tool.saveSettingsP with
      | some v => some (v, "SaveSettings")
      | none =>
          match probeStep tool.getCurrentSettingsP with
          | some v => some (v, "GetCurrentSettings")
          | none => none

/-- Is this value a dict containing an `Inputs` key?  This is the condition
`isinstance(val, dict) and (Inputs in val)` of source line 109. -/
def isInputsDict : Val → Bool
  | .dict d => d.containsKey "Inputs"
  | _ => false

/-- First entry of the `Tools` dict whose value is a dict containing an
`Inputs` key — the entry the loop of source lines 108-114 acts on before
`break`. -/
def findFirstInputs : ValEntries → Option (String × Val)
  | .nil => none
  | .cons k v rest =>
      if isInputsDict v then some (k, v) else findFirstInputs rest

/-- The in-place rename of source lines 108-114, on the `Tools` dict: find the
first `Inputs`-bearing entry; when its key differs from the target name,
register its value under the target name and delete the old key; in every
case stop after that first entry. -/
def patchToolsEntries (tgtName : String) (tools : ValEntries) : ValEntries :=
  match findFirstInputs tools with
  | none => tools
  | some (key, v) =>
      if key = tgtName then tools else (tools.insert tgtName v).remove key

/-- Step 2 of `apply_style_and_restore_text` (source lines 102-114): deep-copy
the snapshot (a no-op in a pure model) and patch the `Tools` dict.  A
snapshot on which the Python code would raise an uncaught exception —
`Tools in x` on a number or `None`, or `x[Tools].items()` when the
`Tools` value is not a dict — yields `Except.error`. -/
def patchStep (sourceSettings : Val) (tgtName : String) : Except String Val :=
  match sourceSettings with
  | .dict entries =>
      match entries.lookup "Tools" with
      | none => .ok sourceSettings
      | some (.dict tools) =>
          .ok (.dict (entries.insert "Tools" (.dict (patchToolsEntries tgtName tools))))
      | some _ => .error "AttributeError: object has no attribute items"
  | .str s =>
      if ("Tools".toList <:+: s.toList) then
        .error "TypeError: string indices must be integers"
      else
        .ok sourceSettings
  | _ => .error "TypeError: argument of type is not iterable"

/-- The setter selection of source lines 118-127: `LoadSettings` when the
snapshot came from `SaveSettings` and the target has it; otherwise
`SetSettings` when present; otherwise `LoadSettings` when present; otherwise
no setter is attempted at all (`apply_success` stays `False`).  Returns the
name of the attempted setter and the effect of invoking it. -/
def chooseSetter (tool : Tool) (sourceMethod : String) :
    Option (String × SetterEffect) :=
  if sourceMethod = "SaveSettings" && tool.hasLoadSettings then
    some ("LoadSettings", tool.loadEff)
  else if tool.hasSetSettings then
    some ("SetSettings", tool.setEff)
  else if tool.hasLoadSettings then
    some ("LoadSettings", tool.loadEff)
  else
    none

/-- Observable outcome of one `apply_style_and_restore_text` call: the return
value (`success`), the target tool state after the call, which setter was
attempted and with which (patched) settings — at most one is ever attempted —
whether the `SetInput` restore call was attempted, and the error lines the
function logged. -/
structure ApplyResult where
  success : Bool
  tool : Tool
  attempted : Option (String × Val)
  restoreAttempted : Bool
  logged : List String
deriving DecidableEq, Repr

/-- `apply_style_and_restore_text` (source lines 86-145).  Steps: back up
`GetInput("StyledText")` with an empty-string guard for `None`; deep-copy and
patch the settings (an exception here escapes the function, modelled as
`Except.error`); attempt at most one setter — a raising setter is caught,
logged and yields `False` with the partial mutation kept; on apply success,
force-restore the backed-up text via `SetInput` — a raising restore is caught,
logged and yields `False`; otherwise return `True`. -/
def apply_style_and_restore_text (tool : Tool) (sourceSettings : Val)
    (sourceMethod : String) : Except String ApplyResult :=
  let originalText := tool.styledText.getD ""
  match patchStep sourceSettings tool.name with
  | .error e => .error e
  | .ok newSettings =>
      match chooseSetter tool sourceMethod with
      | none =>
          .ok ⟨false, tool, none, false, []⟩
      | some (setterName, eff) =>
          let tool1 : Tool := { tool with styledText := eff.newText }
          if eff.raises then
            .ok ⟨false, tool1, some (setterName, newSettings), false,
                 ["  [Error] Apply failed: exception"]⟩
          else if tool.setInputRaises then
            .ok ⟨false, tool1, some (setterName, newSettings), true,
                 ["  [Error] Failed to restore text: exception"]⟩
          else
            .ok ⟨true, { tool1 with styledText := some originalText },
                 some (setterName, newSettings), true, []⟩

/-- Python substring test `sub in hay`. -/
def strContains (hay sub : String) : Bool :=
  decide (sub.toList <:+: hay.toList)

/-- A Fusion composition as the script observes it: the tool dict returned by
`GetToolList(False, "TextPlus")` and the one returned by `GetToolList(False)`,
each as its list of values in iteration order. -/
structure Comp where
  textplusTools : List Tool
  allTools : List Tool
deriving DecidableEq, Repr

/-- `find_textplus_tool` (source lines 41-55): `none` for a missing comp;
otherwise the first tool of the `TextPlus` type query; otherwise the first
tool of the unfiltered query whose name contains `Template` or `Text`. -/
def find_textplus_tool : Option Comp → Option Tool
  | none => none
  | some comp =>
      match comp.textplusTools with
      | t :: _ => some t
      | [] =>
          comp.allTools.find? fun t =>
            strContains t.name "Template" || strContains t.name "Text"

/-- A timeline item as the script observes it.  `fusionComp` is what
`GetFusionCompByIndex(1)` returns; `fusionCompRetry` is what the same call
returns on the one retry made for the source item after switching to the
Fusion page.  Python `==` on two API handles is modelled by structural
equality of these records. -/
structure Item where
  name : String
  clipColor : String
  fusionComp : Option Comp
  fusionCompRetry : Option Comp
deriving DecidableEq, Repr

/-- A call the script issues against the host, recorded for the run trace:
a `GetFusionCompByIndex` access on a named item, an `OpenPage` switch, a
settings-setter invocation on a named tool, or a `SetInput` text write. -/
inductive HostEvent where
  | compAccess : String → HostEvent
  | openPage : String → HostEvent
  | setterCall : String → String → HostEvent
  | setInputCall : String → HostEvent
deriving DecidableEq, Repr

/-- The current timeline: the item under the playhead
(`GetCurrentVideoItem`) and the video tracks (`GetItemListInTrack("video", i)`
for `i = 1 .. GetTrackCount("video")`, each as its item list). -/
structure Timeline where
  currentVideoItem : Option Item
  tracks : List (List Item)
deriving DecidableEq, Repr

/-- The current project as the script observes it. -/
structure Project where
  currentTimeline : Option Timeline
deriving DecidableEq, Repr

/-- The host application.  `resolveAvailable` models `get_resolve()` handing
back a usable handle; `currentProject` is what
`GetProjectManager().GetCurrentProject()` returns. -/
structure Host where
  resolveAvailable : Bool
  currentProject : Option Project
deriving DecidableEq, Repr

/-- The target scan of source lines 231-238: walk the video tracks in index
order and each track in item order, skip the source item (Python
`item == source_item`), and collect every item whose clip color is `Pink`. -/
def scanTargets (tracks : List (List Item)) (sourceItem : Item) : List Item :=
  tracks.foldl
    (fun acc trackItems =>
      trackItems.foldl
        (fun acc2 item =>
          if item = sourceItem then acc2
          else if item.clipColor = "Pink" then acc2 ++ [item]
          else acc2)
        acc)
    []

/-- The comp the script ends up with for the source item (source lines
202-210): the direct `GetFusionCompByIndex(1)` result, or on failure the
result of the one retry after switching to the Fusion page. -/
def sourceCompOf (src : Item) : Option Comp :=
  match src.fusionComp with
  | some c => some c
  | none => src.fusionCompRetry

/-- The host calls issued while resolving the source comp: one access on the
direct path, and access / page-switch / access / page-switch on the retry
path. -/
def sourceCompEvents (src : Item) : List HostEvent :=
  match src.fusionComp with
  | some _ => [.compAccess src.name]
  | none =>
      [.compAccess src.name, .openPage "Fusion",
       .compAccess src.name, .openPage "Edit"]

/-- The setter / restore calls one `apply_style_and_restore_text` outcome
issued on the host. -/
def setterEvents (toolName : String) (r : ApplyResult) : List HostEvent :=
  (match r.attempted with
   | some p => [.setterCall toolName p.1]
   | none => []) ++
  (if r.restoreAttempted then [.setInputCall toolName] else [])

/-- Per-destination processing (source lines 251-273): access the comp, find
the Text+ tool, run `apply_style_and_restore_text` inside the catch-all of
line 264, and log accordingly.  Returns the log lines, the host events and
the contribution to `success_count`. -/
def processTarget (sourceSettings : Val) (sourceMethod : String) (item : Item) :
    List String × List HostEvent × Nat :=
  let ev0 : List HostEvent := [.compAccess item.name]
  match item.fusionComp with
  | none => (["[Skip] " ++ item.name ++ ": No Comp."], ev0, 0)
  | some comp =>
      match find_textplus_tool (some comp) with
      | none => (["[Skip] " ++ item.name ++ ": No Text+ tool."], ev0, 0)
      | some tool =>
          match apply_style_and_restore_text tool sourceSettings sourceMethod with
          | .error e => (["[Fail] " ++ item.name ++ ": " ++ e], ev0, 0)
          | .ok r =>
              let evs := ev0 ++ setterEvents tool.name r
              if r.success then
                (r.logged ++ ["[OK] " ++ item.name], evs, 1)
              else
                (r.logged ++ ["[Fail] " ++ item.name ++ ": Apply failed."], evs, 0)

/-- The destination loop: concatenated logs, concatenated events, summed
success count. -/
def processAll (sourceSettings : Val) (sourceMethod : String) :
    List Item → List String × List HostEvent × Nat
  | [] => ([], [], 0)
  | item :: rest =>
      let r1 := processTarget sourceSettings sourceMethod item
      let r2 := processAll sourceSettings sourceMethod rest
      (r1.1 ++ r2.1, r1.2.1 ++ r2.2.1, r1.2.2 + r2.2.2)

/-- Observable outcome of one `main()` run: the accumulated log, the trace of
host calls issued, the collected destination list, the final success tally,
whether `show_report_window` was reached, and the uncaught exception if the
run died with one. -/
structure RunResult where
  log : List String
  events : List HostEvent
  targets : List Item
  successCount : Nat
  reportShown : Bool
  exception : Option String
deriving DecidableEq, Repr

/-- Wrap a string in single quotes, as the f-strings of the script do. -/
def sQuote (s : String) : String :=
  String.singleton (Char.ofNat 39) ++ s ++ String.singleton (Char.ofNat 39)

/-- The separator line `"-" * 40` of source line 275. -/
def dashesLine : String := String.mk (List.replicate 40 (Char.ofNat 45))

namespace CopyTextStyle

/-- `main` (source lines 179-278).  Early returns: no resolve handle (silent);
no current project (uncaught `AttributeError` on
`project.GetCurrentTimeline()`, source line 186); no timeline / no playhead
item / no source comp / no source tool (logged, no report window); settings
probe failure (logged, report window shown).  Then the target scan, the
empty-target warning, and otherwise the destination loop followed by the
tally, with the report window shown at the end. -/
def main (h : Host) : RunResult :=
  if !h.resolveAvailable then ⟨[], [], [], 0, false, none⟩
  else
    match h.currentProject with
    | none =>
        ⟨[], [], [], 0, false,
         some "AttributeError: NoneType object has no attribute GetCurrentTimeline"⟩
    | some proj =>
        match proj.currentTimeline with
        | none => ⟨["[Error] No timeline open."], [], [], 0, false, none⟩
        | some tl =>
            match tl.currentVideoItem with
            | none => ⟨["[Error] No clip found at playhead."], [], [], 0, false, none⟩
            | some src =>
                let log0 := ["Source: " ++ src.name]
                let ev0 := sourceCompEvents src
                match sourceCompOf src with
                | none =>
                    ⟨log0 ++ ["[Error] Could not load Fusion Comp."], ev0, [], 0, false, none⟩
                | some comp =>
                    match find_textplus_tool (some comp) with
                    | none =>
                        ⟨log0 ++ ["[Error] Text+ tool not found."], ev0, [], 0, false, none⟩
                    | some sourceTool =>
                        match get_tool_settings sourceTool with
                        | none =>
                            ⟨log0 ++ ["[Fatal Error] Could not retrieve settings."],
                             ev0, [], 0, true, none⟩
                        | some (sourceSettings, methodUsed) =>
                            let log1 := log0 ++
                              ["[Success] Settings captured via " ++ sQuote methodUsed]
                            let targets := scanTargets tl.tracks src
                            if targets.isEmpty then
                              ⟨log1 ++ ["[Warning] No " ++ sQuote "Pink" ++ " clips found."],
                               ev0, targets, 0, true, none⟩
                            else
                              let res := processAll sourceSettings methodUsed targets
                              ⟨log1 ++ ["Targets: " ++ toString targets.length ++ " clips."] ++
                                 res.1 ++
                                 [dashesLine, "Done. Updated " ++ toString res.2.2 ++ " clips."],
                               ev0 ++ [.openPage "Edit"] ++ res.2.1,
                               targets, res.2.2, true, none⟩

end CopyTextStyle

/-! ## Dictionary lemmas -/

/-- Induction principle for `ValEntries` alone (the generated mutual recursor
has two motives, which the `induction` tactic cannot use directly). -/
@[induction_eliminator]
theorem ValEntries.inducOn {motive : ValEntries → Prop}
    (nil : motive .nil)
    (cons : ∀ (k : String) (v : Val) (rest : ValEntries),
      motive rest → motive (.cons k v rest)) :
    ∀ d : ValEntries, motive d
  | .nil => nil
  | .cons k v rest => cons k v rest (ValEntries.inducOn nil cons rest)

theorem ValEntries.containsKey_iff_mem_keys (d : ValEntries) (k : String) :
    d.containsKey k = true ↔ k ∈ d.keys := by
  induction d with
  | nil => simp [ValEntries.containsKey, ValEntries.keys]
  | cons k0 v0 rest ih =>
      by_cases hk : k0 = k
      · simp [ValEntries.containsKey, ValEntries.keys, hk]
      · simp only [ValEntries.containsKey, ValEntries.keys, if_neg hk, ih,
          List.mem_cons]
        constructor
        · exact Or.inr
        · rintro (hc | hm)
          · exact absurd hc.symm hk
          · exact hm

theorem ValEntries.lookup_insert_self (d : ValEntries) (k : String) (v : Val) :
    (d.insert k v).lookup k = some v := by
  induction d with
  | nil => simp [ValEntries.insert, ValEntries.lookup]
  | cons k0 v0 rest ih =>
      by_cases hk : k0 = k
      · simp [ValEntries.insert, ValEntries.lookup, hk]
      · simp [ValEntries.insert, ValEntries.lookup, hk, ih]

theorem ValEntries.lookup_insert_ne (d : ValEntries) (k k' : String) (v : Val)
    (h : k' ≠ k) : (d.insert k v).lookup k' = d.lookup k' := by
  induction d with
  | nil => simp [ValEntries.insert, ValEntries.lookup, Ne.symm h]
  | cons k0 v0 rest ih =>
      by_cases hk : k0 = k
      · subst hk
        simp [ValEntries.insert, ValEntries.lookup, Ne.symm h]
      · simp [ValEntries.insert, ValEntries.lookup, hk, ih]

theorem ValEntries.lookup_remove_ne (d : ValEntries) (k k' : String)
    (h : k' ≠ k) : (d.remove k).lookup k' = d.lookup k' := by
  induction d with
  | nil => simp [ValEntries.remove]
  | cons k0 v0 rest ih =>
      by_cases hk : k0 = k
      · subst hk
        simp [ValEntries.remove, ValEntries.lookup, Ne.symm h]
      · simp [ValEntries.remove, ValEntries.lookup, hk, ih]

theorem ValEntries.keys_insert (d : ValEntries) (k : String) (v : Val) :
    (d.insert k v).keys = if d.containsKey k then d.keys else d.keys ++ [k] := by
  induction d with
  | nil => simp [ValEntries.insert, ValEntries.keys, ValEntries.containsKey]
  | cons k0 v0 rest ih =>
      by_cases hk : k0 = k
      · simp [ValEntries.insert, ValEntries.keys, ValEntries.containsKey, hk]
      · by_cases hc : rest.containsKey k
        · simp [ValEntries.insert, ValEntries.keys, ValEntries.containsKey, hk, hc, ih]
        · simp [ValEntries.insert, ValEntries.keys, ValEntries.containsKey, hk, hc, ih]

theorem ValEntries.keys_insert_nodup (d : ValEntries) (k : String) (v : Val)
    (h : d.keys.Nodup) : (d.insert k v).keys.Nodup := by
  rw [ValEntries.keys_insert]
  by_cases hc : d.containsKey k
  · simpa [hc] using h
  · have hk : k ∉ d.keys := fun hm =>
      hc ((ValEntries.containsKey_iff_mem_keys d k).mpr hm)
    simp [hc, List.nodup_append, h, hk]

theorem ValEntries.containsKey_remove_self (d : ValEntries) (k : String)
    (h : d.keys.Nodup) : (d.remove k).containsKey k = false := by
  induction d with
  | nil => simp [ValEntries.remove, ValEntries.containsKey]
  | cons k0 v0 rest ih =>
      have hsplit : k0 ∉ rest.keys ∧ rest.keys.Nodup := by
        simpa [ValEntries.keys, List.nodup_cons] using h
      obtain ⟨h0, h1⟩ := hsplit
      by_cases hk : k0 = k
      · subst hk
        simp only [ValEntries.remove, if_pos rfl]
        rw [Bool.eq_false_iff]
        intro hc
        exact h0 ((ValEntries.containsKey_iff_mem_keys rest k0).mp hc)
      · simp [ValEntries.remove, ValEntries.containsKey, hk, ih h1]

theorem ValEntries.insert_eq_self_of_lookup (d : ValEntries) (k : String) (v : Val)
    (h : d.lookup k = some v) : d.insert k v = d := by
  induction d with
  | nil => simp [ValEntries.lookup] at h
  | cons k0 v0 rest ih =>
      by_cases hk : k0 = k
      · subst hk
        simp [ValEntries.lookup] at h
        simp [ValEntries.insert, h]
      · simp [ValEntries.lookup, hk] at h
        simp [ValEntries.insert, hk, ih h]

/-! ## Claim C3: the patch-step rename -/

/-- C3, counterexample to the claim as stated.  Snapshot whose `Tools` dict
holds two `Inputs`-bearing entries, `Other` first and `Src` (the source node
name) second.  The patch step renames the first `Inputs`-bearing entry,
`Other`, so after patching with destination name `Dst` the source-name key
`Src` is still present (the claim requires it absent) and the `Dst` entry
carries the value of `Other`, not the one keyed by the source name. -/
theorem patch_source_key_survives_cex :
    patchStep
        (Val.dict (.cons "Tools"
          (Val.dict (.cons "Other" (Val.dict (.cons "Inputs" Val.null .nil))
            (.cons "Src" (Val.dict (.cons "Inputs" Val.null .nil)) .nil))) .nil))
        "Dst"
      = Except.ok (Val.dict (.cons "Tools"
          (Val.dict (.cons "Src" (Val.dict (.cons "Inputs" Val.null .nil))
            (.cons "Dst" (Val.dict (.cons "Inputs" Val.null .nil)) .nil))) .nil))
    ∧ ValEntries.containsKey
        (.cons "Other" (Val.dict (.cons "Inputs" Val.null .nil))
          (.cons "Src" (Val.dict (.cons "Inputs" Val.null .nil)) .nil)) "Src" = true
    ∧ ValEntries.containsKey
        (.cons "Src" (Val.dict (.cons "Inputs" Val.null .nil))
          (.cons "Dst" (Val.dict (.cons "Inputs" Val.null .nil)) .nil)) "Src" = true :=
  ⟨rfl, rfl, rfl⟩

/-- C3 (amended): when the FIRST `Inputs`-bearing entry of the `Tools` dict is
the one keyed by the source node name, and that name differs from the
destination name, patching removes the source-name key, creates an entry under
the destination name with the same nested value, and leaves every other key
untouched (the rename stops after that first entry).  The patch acts on a
(deep) copy, so in this pure model the original snapshot is unchanged by
construction. -/
theorem patch_renames_first_inputs_entry
    (tools : ValEntries) (srcName tgtName : String) (v : Val)
    (hnd : tools.keys.Nodup)
    (hf : findFirstInputs tools = some (srcName, v))
    (hne : srcName ≠ tgtName) :
    (patchToolsEntries tgtName tools).containsKey srcName = false
    ∧ (patchToolsEntries tgtName tools).lookup tgtName = some v
    ∧ ∀ k, k ≠ srcName → k ≠ tgtName →
        (patchToolsEntries tgtName tools).lookup k = tools.lookup k := by
  have hp : patchToolsEntries tgtName tools = (tools.insert tgtName v).remove srcName := by
    unfold patchToolsEntries
    rw [hf]
    simp [hne]
  refine ⟨?_, ?_, ?_⟩
  · rw [hp]
    exact ValEntries.containsKey_remove_self _ _
      (ValEntries.keys_insert_nodup tools tgtName v hnd)
  · rw [hp, ValEntries.lookup_remove_ne _ _ _ (Ne.symm hne),
      ValEntries.lookup_insert_self]
  · intro k hks hkt
    rw [hp, ValEntries.lookup_remove_ne _ _ _ hks,
      ValEntries.lookup_insert_ne _ _ _ _ hkt]

/-- Witness for the amended C3 theorem at a concrete snapshot. -/
theorem patch_renames_first_inputs_entry_witness :
    (patchToolsEntries "Dst"
        (.cons "Src" (Val.dict (.cons "Inputs" Val.null .nil)) .nil)).containsKey "Src" = false
    ∧ (patchToolsEntries "Dst"
        (.cons "Src" (Val.dict (.cons "Inputs" Val.null .nil)) .nil)).lookup "Dst"
        = some (Val.dict (.cons "Inputs" Val.null .nil)) :=
  ⟨(patch_renames_first_inputs_entry
      (.cons "Src" (Val.dict (.cons "Inputs" Val.null .nil)) .nil)
      "Src" "Dst" (Val.dict (.cons "Inputs" Val.null .nil))
      (by decide) rfl (by decide)).1,
   (patch_renames_first_inputs_entry
      (.cons "Src" (Val.dict (.cons "Inputs" Val.null .nil)) .nil)
      "Src" "Dst" (Val.dict (.cons "Inputs" Val.null .nil))
      (by decide) rfl (by decide)).2.1⟩

/-! ## Claim C10: the patch step is a no-op when the first entry already
carries the destination name -/

/-- C10: if the first `Inputs`-bearing entry of the snapshot `Tools` dict is
already keyed by the destination node name, the patch step returns the
(deep-copied) snapshot entirely unchanged; in particular no later
`Inputs`-bearing entry is renamed. -/
theorem patch_noop_when_first_entry_is_destination
    (entries tools : ValEntries) (tgtName : String) (v : Val)
    (hT : entries.lookup "Tools" = some (Val.dict tools))
    (hf : findFirstInputs tools = some (tgtName, v)) :
    patchStep (Val.dict entries) tgtName = Except.ok (Val.dict entries)
    ∧ patchToolsEntries tgtName tools = tools := by
  have hp : patchToolsEntries tgtName tools = tools := by
    unfold patchToolsEntries
    rw [hf]
    simp
  have hs : patchStep (Val.dict entries) tgtName
      = .ok (.dict (entries.insert "Tools" (.dict (patchToolsEntries tgtName tools)))) := by
    simp [patchStep, hT]
  rw [hs, hp, ValEntries.insert_eq_self_of_lookup entries "Tools" (Val.dict tools) hT]
  exact ⟨rfl, rfl⟩

/-- Witness for the C10 theorem at a concrete snapshot: `Tools` holds the
destination-keyed entry first and a source-keyed entry after it. -/
theorem patch_noop_when_first_entry_is_destination_witness :
    patchStep
        (Val.dict (.cons "Tools"
          (Val.dict (.cons "Dst" (Val.dict (.cons "Inputs" Val.null .nil))
            (.cons "Src" (Val.dict (.cons "Inputs" Val.null .nil)) .nil))) .nil))
        "Dst"
      = Except.ok (Val.dict (.cons "Tools"
          (Val.dict (.cons "Dst" (Val.dict (.cons "Inputs" Val.null .nil))
            (.cons "Src" (Val.dict (.cons "Inputs" Val.null .nil)) .nil))) .nil))
    ∧ patchToolsEntries "Dst"
        (.cons "Dst" (Val.dict (.cons "Inputs" Val.null .nil))
          (.cons "Src" (Val.dict (.cons "Inputs" Val.null .nil)) .nil))
      = (.cons "Dst" (Val.dict (.cons "Inputs" Val.null .nil))
          (.cons "Src" (Val.dict (.cons "Inputs" Val.null .nil)) .nil)) :=
  patch_noop_when_first_entry_is_destination
    (.cons "Tools"
      (Val.dict (.cons "Dst" (Val.dict (.cons "Inputs" Val.null .nil))
        (.cons "Src" (Val.dict (.cons "Inputs" Val.null .nil)) .nil))) .nil)
    (.cons "Dst" (Val.dict (.cons "Inputs" Val.null .nil))
      (.cons "Src" (Val.dict (.cons "Inputs" Val.null .nil)) .nil))
    "Dst" (Val.dict (.cons "Inputs" Val.null .nil)) rfl rfl

/-! ## Claim C2: the settings probe -/

/-- The acceptance criterion as the specification words it, on one probe
outcome: the accessor exists, its invocation returned (did not raise), and
the result is a non-empty mapping that contains an `Inputs` key, or contains
a `Tools` key, or has more than five top-level keys. -/
def specAccepts (p : Probe) : Prop :=
  ∃ d : ValEntries, p = .returns (.dict d) ∧ 0 < d.length ∧
    (d.containsKey "Inputs" = true ∨ d.containsKey "Tools" = true ∨ 5 < d.length)

theorem settingsAcceptable_iff (v : Val) :
    settingsAcceptable v = true ↔ ∃ d, v = Val.dict d ∧ 0 < d.length ∧
      (d.containsKey "Inputs" = true ∨ d.containsKey "Tools" = true ∨ 5 < d.length) := by
  cases v with
  | dict d =>
      simp only [settingsAcceptable, Bool.and_eq_true, Bool.or_eq_true,
        decide_eq_true_eq, gt_iff_lt]
      constructor
      · rintro ⟨h1, h2⟩
        exact ⟨d, rfl, h1, by tauto⟩
      · rintro ⟨d', hd, h1, h2⟩
        injection hd with hd
        subst hd
        exact ⟨h1, by tauto⟩
  | str s => simp [settingsAcceptable, specAccepts]
  | num n => simp [settingsAcceptable, specAccepts]
  | null => simp [settingsAcceptable, specAccepts]

theorem specAccepts_returns (w : Val) :
    specAccepts (.returns w) ↔ settingsAcceptable w = true := by
  constructor
  · rintro ⟨d, hd, h1, h2⟩
    injection hd with hv
    rw [hv]
    exact (settingsAcceptable_iff _).mpr ⟨d, rfl, h1, h2⟩
  · intro h
    rcases (settingsAcceptable_iff w).mp h with ⟨d, hd, h1, h2⟩
    exact ⟨d, by rw [hd], h1, h2⟩

theorem probeStep_eq_some_iff (p : Probe) (v : Val) :
    probeStep p = some v ↔ p = .returns v ∧ specAccepts p := by
  cases p with
  | missing => simp [probeStep, specAccepts]
  | raises => simp [probeStep, specAccepts]
  | returns w =>
      by_cases h : settingsAcceptable w
      · simp only [probeStep, if_pos h, Option.some.injEq, Probe.returns.injEq]
        constructor
        · rintro rfl
          exact ⟨rfl, (specAccepts_returns w).mpr h⟩
        · rintro ⟨h1, _⟩
          exact h1
      · simp only [probeStep, if_neg h]
        constructor
        · intro hc
          exact absurd hc (by simp)
        · rintro ⟨h1, hacc⟩
          exact absurd ((specAccepts_returns w).mp hacc) h

theorem probeStep_eq_none_iff (p : Probe) :
    probeStep p = none ↔ ¬ specAccepts p := by
  cases p with
  | missing => simp [probeStep, specAccepts]
  | raises => simp [probeStep, specAccepts]
  | returns w =>
      by_cases h : settingsAcceptable w
      · simp [probeStep, h, specAccepts_returns]
      · simp [probeStep, h, specAccepts_returns]

/-- C2: `get_tool_settings` probes `GetSettings`, `SaveSettings`,
`GetCurrentSettings` in this fixed order; a probed outcome qualifies exactly
when `specAccepts` holds of it (it returned a non-empty mapping containing an
`Inputs` key, or a `Tools` key, or more than five top-level keys — a missing
accessor or a swallowed exception never qualifies); the first qualifying
accessor is returned with its captured mapping and its name, and the probe
reports failure iff no accessor qualifies. -/
theorem get_tool_settings_characterization (tool : Tool) :
    (get_tool_settings tool = none ↔
      ¬ specAccepts tool.getSettingsP ∧ ¬ specAccepts tool.saveSettingsP ∧
        ¬ specAccepts tool.getCurrentSettingsP)
    ∧ (∀ v n, get_tool_settings tool = some (v, n) →
        (n = "GetSettings" ∧ tool.getSettingsP = .returns v ∧
          specAccepts tool.getSettingsP)
        ∨ (n = "SaveSettings" ∧ ¬ specAccepts tool.getSettingsP ∧
            tool.saveSettingsP = .returns v ∧ specAccepts tool.saveSettingsP)
        ∨ (n = "GetCurrentSettings" ∧ ¬ specAccepts tool.getSettingsP ∧
            ¬ specAccepts tool.saveSettingsP ∧
            tool.getCurrentSettingsP = .returns v ∧
            specAccepts tool.getCurrentSettingsP)) := by
  cases h1 : probeStep tool.getSettingsP with
  | some v1 =>
      obtain ⟨hr1, ha1⟩ := (probeStep_eq_some_iff _ _).mp h1
      constructor
      · simp [get_tool_settings, h1, ha1]
      · intro v n hn
        simp only [get_tool_settings, h1, Option.some.injEq, Prod.mk.injEq] at hn
        left
        exact ⟨hn.2.symm, hn.1 ▸ hr1, ha1⟩
  | none =>
      have hn1 := (probeStep_eq_none_iff _).mp h1
      cases h2 : probeStep tool.saveSettingsP with
      | some v2 =>
          obtain ⟨hr2, ha2⟩ := (probeStep_eq_some_iff _ _).mp h2
          constructor
          · simp [get_tool_settings, h1, h2, ha2]
          · intro v n hn
            simp only [get_tool_settings, h1, h2, Option.some.injEq,
              Prod.mk.injEq] at hn
            right; left
            exact ⟨hn.2.symm, hn1, hn.1 ▸ hr2, ha2⟩
      | none =>
          have hn2 := (probeStep_eq_none_iff _).mp h2
          cases h3 : probeStep tool.getCurrentSettingsP with
          | some v3 =>
              obtain ⟨hr3, ha3⟩ := (probeStep_eq_some_iff _ _).mp h3
              constructor
              · simp [get_tool_settings, h1, h2, h3, ha3]
              · intro v n hn
                simp only [get_tool_settings, h1, h2, h3, Option.some.injEq,
                  Prod.mk.injEq] at hn
                right; right
                exact ⟨hn.2.symm, hn1, hn2, hn.1 ▸ hr3, ha3⟩
          | none =>
              have hn3 := (probeStep_eq_none_iff _).mp h3
              constructor
              · simp [get_tool_settings, h1, h2, h3, hn1, hn2, hn3]
              · intro v n hn
                simp [get_tool_settings, h1, h2, h3] at hn

/-- Concrete qualifying mapping for the C2 witness. -/
def c2Val : Val := Val.dict (.cons "Tools" (Val.dict .nil) .nil)

/-- Concrete tool for the C2 witness: `GetSettings` raises (swallowed,
skipped) and `SaveSettings` returns the qualifying mapping. -/
def c2Tool : Tool :=
  ⟨"Src", none, .raises, .returns c2Val, .missing, false, false,
   ⟨none, false⟩, ⟨none, false⟩, false⟩

/-- Witness for C2 at the concrete tool `c2Tool`. -/
theorem get_tool_settings_characterization_witness :
    ("SaveSettings" = "GetSettings" ∧ c2Tool.getSettingsP = .returns c2Val ∧
      specAccepts c2Tool.getSettingsP)
    ∨ ("SaveSettings" = "SaveSettings" ∧ ¬ specAccepts c2Tool.getSettingsP ∧
        c2Tool.saveSettingsP = .returns c2Val ∧ specAccepts c2Tool.saveSettingsP)
    ∨ ("SaveSettings" = "GetCurrentSettings" ∧ ¬ specAccepts c2Tool.getSettingsP ∧
        ¬ specAccepts c2Tool.saveSettingsP ∧
        c2Tool.getCurrentSettingsP = .returns c2Val ∧
        specAccepts c2Tool.getCurrentSettingsP) :=
  (get_tool_settings_characterization c2Tool).2 c2Val "SaveSettings" rfl

/-! ## Claim C1: text restoration -/

/-- C1, counterexample to the claim as stated: a destination whose
`StyledText` pre-read yields nothing (Python `None`).  The call succeeds, yet
the payload after the call is the empty string, not bit-identical to the
`none` read before the call (the empty-string guard of source lines 99-100
was substituted). -/
theorem apply_restore_text_mismatch_cex :
    apply_style_and_restore_text
        ⟨"Dst", none, .missing, .missing, .missing, true, false,
         ⟨some "X", false⟩, ⟨none, false⟩, false⟩
        (Val.dict .nil) "GetSettings"
      = Except.ok ⟨true,
          ⟨"Dst", some "", .missing, .missing, .missing, true, false,
           ⟨some "X", false⟩, ⟨none, false⟩, false⟩,
          some ("SetSettings", Val.dict .nil), true, []⟩
    ∧ (⟨"Dst", none, .missing, .missing, .missing, true, false,
         ⟨some "X", false⟩, ⟨none, false⟩, false⟩ : Tool).styledText = none
    ∧ some "" ≠ (none : Option String) :=
  ⟨rfl, rfl, by simp⟩

/-- C1 (amended): whenever `apply_style_and_restore_text` returns success,
the destination ends with `StyledText` equal to the backed-up payload — the
payload read before the call whenever one was readable, and the empty string
when the pre-read yielded nothing — and success is returned only if both the
apply step succeeded (a setter was attempted and did not raise) and the
restore step succeeded (`SetInput` was attempted and did not raise). -/
theorem apply_restore_preserves_text (tool : Tool) (ss : Val) (m : String)
    (r : ApplyResult)
    (h : apply_style_and_restore_text tool ss m = .ok r)
    (hs : r.success = true) :
    r.tool.styledText = some (tool.styledText.getD "")
    ∧ (∀ s, tool.styledText = some s → r.tool.styledText = some s)
    ∧ (∃ setterName eff ns, chooseSetter tool m = some (setterName, eff) ∧
        eff.raises = false ∧ patchStep ss tool.name = .ok ns ∧
        r.attempted = some (setterName, ns))
    ∧ r.restoreAttempted = true
    ∧ tool.setInputRaises = false := by
  simp only [apply_style_and_restore_text] at h
  split at h
  · simp at h
  · rename_i ns hp
    split at h
    · rename_i hc
      simp only [Except.ok.injEq] at h
      subst h
      simp at hs
    · rename_i setterName eff hc
      split at h
      · rename_i hr
        simp only [Except.ok.injEq] at h
        subst h
        simp at hs
      · rename_i hr
        split at h
        · rename_i hi
          simp only [Except.ok.injEq] at h
          subst h
          simp at hs
        · rename_i hi
          simp only [Except.ok.injEq] at h
          subst h
          refine ⟨rfl, ?_, ⟨setterName, eff, ns, hc, ?_, hp, rfl⟩, rfl, ?_⟩
          · intro s hsome
            simp [hsome]
          · simpa using hr
          · simpa using hi

/-- Concrete destination tool for the C1 witness (readable payload). -/
def c1Tool : Tool :=
  ⟨"Dst", some "Hello", .missing, .missing, .missing, true, false,
   ⟨some "X", false⟩, ⟨none, false⟩, false⟩

/-- The outcome `apply_style_and_restore_text` produces on `c1Tool`. -/
def c1Res : ApplyResult :=
  ⟨true,
   ⟨"Dst", some "Hello", .missing, .missing, .missing, true, false,
    ⟨some "X", false⟩, ⟨none, false⟩, false⟩,
   some ("SetSettings", Val.dict .nil), true, []⟩

/-- Witness for the amended C1 theorem at `c1Tool`. -/
theorem apply_restore_preserves_text_witness :
    c1Res.tool.styledText = some (c1Tool.styledText.getD "")
    ∧ c1Res.restoreAttempted = true
    ∧ c1Tool.setInputRaises = false :=
  ⟨(apply_restore_preserves_text c1Tool (Val.dict .nil) "GetSettings" c1Res rfl rfl).1,
   (apply_restore_preserves_text c1Tool (Val.dict .nil) "GetSettings" c1Res rfl rfl).2.2.2.1,
   (apply_restore_preserves_text c1Tool (Val.dict .nil) "GetSettings" c1Res rfl rfl).2.2.2.2⟩

/-! ## Claim C4: setter choice and failure behaviour -/

/-- The setter invocation one call of `apply_style_and_restore_text` actually
attempted (name and settings passed), read off its outcome; `none` when no
setter was attempted or the call died before the apply step. -/
def attemptedSetter (tool : Tool) (ss : Val) (m : String) : Option (String × Val) :=
  match apply_style_and_restore_text tool ss m with
  | .ok r => r.attempted
  | .error _ => none

/-- Helper: with the patch step done and a setter chosen, the outcome of
`apply_style_and_restore_text` in closed form. -/
theorem apply_ok_of_chooseSetter (tool : Tool) (ss : Val) (m : String)
    (ns : Val) (setterName : String) (eff : SetterEffect)
    (hp : patchStep ss tool.name = Except.ok ns)
    (hc : chooseSetter tool m = some (setterName, eff)) :
    apply_style_and_restore_text tool ss m =
      .ok (if eff.raises then
            ⟨false, { tool with styledText := eff.newText },
             some (setterName, ns), false, ["  [Error] Apply failed: exception"]⟩
          else if tool.setInputRaises then
            ⟨false, { tool with styledText := eff.newText },
             some (setterName, ns), true, ["  [Error] Failed to restore text: exception"]⟩
          else
            ⟨true, { tool with styledText := some (tool.styledText.getD "") },
             some (setterName, ns), true, []⟩) := by
  simp only [apply_style_and_restore_text, hp, hc]
  by_cases hr : eff.raises <;> by_cases hi : tool.setInputRaises <;> simp [hr, hi]

/-- Helper: with the patch step done and no setter available, the outcome of
`apply_style_and_restore_text` in closed form. -/
theorem apply_ok_of_no_setter (tool : Tool) (ss : Val) (m : String) (ns : Val)
    (hp : patchStep ss tool.name = Except.ok ns)
    (hc : chooseSetter tool m = none) :
    apply_style_and_restore_text tool ss m = .ok ⟨false, tool, none, false, []⟩ := by
  simp only [apply_style_and_restore_text, hp, hc]

/-- C4: exactly one setter is attempted, chosen in the fixed preference order
of source lines 118-127 — `LoadSettings` when the snapshot came from
`SaveSettings` and the destination has `LoadSettings`; otherwise
`SetSettings` when present; otherwise `LoadSettings` when present; no setter
otherwise — and when the chosen setter raises, the whole operation fails
(result `False`) with the exception logged and the destination left in
whatever state the raising call produced (no rollback). -/
theorem apply_setter_preference (tool : Tool) (ss : Val) (m : String) (ns : Val)
    (hp : patchStep ss tool.name = Except.ok ns) :
    ((m = "SaveSettings" ∧ tool.hasLoadSettings = true) →
      attemptedSetter tool ss m = some ("LoadSettings", ns)
      ∧ (tool.loadEff.raises = true →
          apply_style_and_restore_text tool ss m =
            .ok ⟨false, { tool with styledText := tool.loadEff.newText },
                 some ("LoadSettings", ns), false,
                 ["  [Error] Apply failed: exception"]⟩))
    ∧ ((¬(m = "SaveSettings" ∧ tool.hasLoadSettings = true) ∧
        tool.hasSetSettings = true) →
      attemptedSetter tool ss m = some ("SetSettings", ns)
      ∧ (tool.setEff.raises = true →
          apply_style_and_restore_text tool ss m =
            .ok ⟨false, { tool with styledText := tool.setEff.newText },
                 some ("SetSettings", ns), false,
                 ["  [Error] Apply failed: exception"]⟩))
    ∧ ((¬(m = "SaveSettings" ∧ tool.hasLoadSettings = true) ∧
        tool.hasSetSettings = false ∧ tool.hasLoadSettings = true) →
      attemptedSetter tool ss m = some ("LoadSettings", ns)
      ∧ (tool.loadEff.raises = true →
          apply_style_and_restore_text tool ss m =
            .ok ⟨false, { tool with styledText := tool.loadEff.newText },
                 some ("LoadSettings", ns), false,
                 ["  [Error] Apply failed: exception"]⟩))
    ∧ ((¬(m = "SaveSettings" ∧ tool.hasLoadSettings = true) ∧
        tool.hasSetSettings = false ∧ tool.hasLoadSettings = false) →
      apply_style_and_restore_text tool ss m = .ok ⟨false, tool, none, false, []⟩) := by
  refine ⟨?_, ?_, ?_, ?_⟩
  · rintro ⟨hm, hl⟩
    have hc : chooseSetter tool m = some ("LoadSettings", tool.loadEff) := by
      simp [chooseSetter, hm, hl]
    constructor
    · rw [attemptedSetter, apply_ok_of_chooseSetter tool ss m ns _ _ hp hc]
      by_cases hr : tool.loadEff.raises <;>
        by_cases hi : tool.setInputRaises <;> simp [hr, hi]
    · intro hr
      rw [apply_ok_of_chooseSetter tool ss m ns _ _ hp hc]
      simp [hr]
  · rintro ⟨hA, hset⟩
    have hc : chooseSetter tool m = some ("SetSettings", tool.setEff) := by
      simp only [chooseSetter]
      rw [if_neg, if_pos hset]
      simpa using fun hm hl => hA ⟨hm, hl⟩
    constructor
    · rw [attemptedSetter, apply_ok_of_chooseSetter tool ss m ns _ _ hp hc]
      by_cases hr : tool.setEff.raises <;>
        by_cases hi : tool.setInputRaises <;> simp [hr, hi]
    · intro hr
      rw [apply_ok_of_chooseSetter tool ss m ns _ _ hp hc]
      simp [hr]
  · rintro ⟨hA, hset, hl⟩
    have hc : chooseSetter tool m = some ("LoadSettings", tool.loadEff) := by
      simp only [chooseSetter]
      rw [if_neg, if_neg, if_pos hl]
      · simp [hset]
      · simpa using fun hm hll => hA ⟨hm, hll⟩
    constructor
    · rw [attemptedSetter, apply_ok_of_chooseSetter tool ss m ns _ _ hp hc]
      by_cases hr : tool.loadEff.raises <;>
        by_cases hi : tool.setInputRaises <;> simp [hr, hi]
    · intro hr
      rw [apply_ok_of_chooseSetter tool ss m ns _ _ hp hc]
      simp [hr]
  · rintro ⟨hA, hset, hl⟩
    have hc : chooseSetter tool m = none := by
      simp only [chooseSetter]
      rw [if_neg, if_neg, if_neg]
      · simp [hl]
      · simp [hset]
      · simpa using fun hm hll => hA ⟨hm, hll⟩
    exact apply_ok_of_no_setter tool ss m ns hp hc

/-- Concrete destination tool for the C4 witness: the snapshot came from
`SaveSettings`, the tool has both setters, and `LoadSettings` raises after
leaving the text cleared. -/
def c4Tool : Tool :=
  ⟨"Dst", some "Hello", .missing, .missing, .missing, true, true,
   ⟨some "Z", false⟩, ⟨none, true⟩, false⟩

/-- Witness for C4 at `c4Tool`: `LoadSettings` is preferred (snapshot from
`SaveSettings`), and its raising leaves the failure outcome with the partial
mutation kept. -/
theorem apply_setter_preference_witness :
    attemptedSetter c4Tool (Val.dict .nil) "SaveSettings"
      = some ("LoadSettings", Val.dict .nil)
    ∧ apply_style_and_restore_text c4Tool (Val.dict .nil) "SaveSettings" =
        .ok ⟨false, { c4Tool with styledText := c4Tool.loadEff.newText },
             some ("LoadSettings", Val.dict .nil), false,
             ["  [Error] Apply failed: exception"]⟩ :=
  ⟨((apply_setter_preference c4Tool (Val.dict .nil) "SaveSettings" (Val.dict .nil)
      rfl).1 ⟨rfl, rfl⟩).1,
   ((apply_setter_preference c4Tool (Val.dict .nil) "SaveSettings" (Val.dict .nil)
      rfl).1 ⟨rfl, rfl⟩).2 rfl⟩

/-! ## Claim C8: the backup step never aborts -/

/-- C8: when the destination text payload is unreadable (`GetInput` yields
`None`), the empty string is substituted as the backup and the per-destination
operation still proceeds to the patch and apply steps: the call errors iff the
patch step errors (the backup itself never aborts), the attempted setter is
exactly the one the preference order picks, and on success the restored
payload is the substituted empty string. -/
theorem backup_never_aborts (tool : Tool) (ss : Val) (m : String)
    (h0 : tool.styledText = none) :
    ((∃ e, apply_style_and_restore_text tool ss m = .error e) ↔
      (∃ e, patchStep ss tool.name = .error e))
    ∧ (∀ ns, patchStep ss tool.name = Except.ok ns →
        ∃ r, apply_style_and_restore_text tool ss m = .ok r ∧
          r.attempted = (chooseSetter tool m).map (fun p => (p.1, ns)) ∧
          (r.success = true → r.tool.styledText = some "")) := by
  constructor
  · cases hps : patchStep ss tool.name with
    | error e =>
        constructor
        · intro _
          exact ⟨e, rfl⟩
        · intro _
          refine ⟨e, ?_⟩
          simp [apply_style_and_restore_text, hps]
    | ok ns =>
        cases hc : chooseSetter tool m with
        | none =>
            rw [apply_ok_of_no_setter tool ss m ns hps hc]
            simp
        | some p =>
            rw [apply_ok_of_chooseSetter tool ss m ns p.1 p.2 hps hc]
            by_cases hr : p.2.raises <;> by_cases hi : tool.setInputRaises <;>
              simp [hr, hi]
  · intro ns hps
    cases hc : chooseSetter tool m with
    | none =>
        refine ⟨⟨false, tool, none, false, []⟩,
          apply_ok_of_no_setter tool ss m ns hps hc, by simp, by simp⟩
    | some p =>
        rw [apply_ok_of_chooseSetter tool ss m ns p.1 p.2 hps hc]
        by_cases hr : p.2.raises
        · refine ⟨_, by rw [if_pos hr], by simp, by simp⟩
        · by_cases hi : tool.setInputRaises
          · refine ⟨_, by rw [if_neg hr, if_pos hi], by simp, by simp⟩
          · refine ⟨_, by rw [if_neg hr, if_neg hi], by simp, ?_⟩
            intro _
            simp [h0]

/-- Concrete destination tool for the C8 witness: unreadable text payload. -/
def c8Tool : Tool :=
  ⟨"Dst", none, .missing, .missing, .missing, true, false,
   ⟨some "X", false⟩, ⟨none, false⟩, false⟩

/-- Witness for C8 at `c8Tool`. -/
theorem backup_never_aborts_witness :
    ∃ r, apply_style_and_restore_text c8Tool (Val.dict .nil) "GetSettings" = .ok r ∧
      r.attempted = (chooseSetter c8Tool "GetSettings").map
        (fun p => (p.1, Val.dict .nil)) ∧
      (r.success = true → r.tool.styledText = some "") :=
  (backup_never_aborts c8Tool (Val.dict .nil) "GetSettings" rfl).2
    (Val.dict .nil) rfl

/-! ## Main-flow lemmas -/

theorem sourceCompEvents_shape (src : Item) (e : HostEvent)
    (he : e ∈ sourceCompEvents src) :
    e = .compAccess src.name ∨ ∃ p, e = .openPage p := by
  cases hf : src.fusionComp with
  | some c =>
      simp only [sourceCompEvents, hf, List.mem_singleton] at he
      exact Or.inl he
  | none =>
      simp only [sourceCompEvents, hf, List.mem_cons, List.mem_singleton,
        List.not_mem_nil, or_false] at he
      rcases he with h | h | h | h
      · exact Or.inl h
      · exact Or.inr ⟨_, h⟩
      · exact Or.inl h
      · exact Or.inr ⟨_, h⟩

theorem scanTargets_inner (src : Item) (items : List Item) (acc : List Item) :
    items.foldl
        (fun acc2 item =>
          if item = src then acc2
          else if item.clipColor = "Pink" then acc2 ++ [item]
          else acc2) acc
      = acc ++ items.filter
          (fun item => !decide (item = src) && decide (item.clipColor = "Pink")) := by
  induction items generalizing acc with
  | nil => simp
  | cons it rest ih =>
      by_cases h1 : it = src
      · simp [List.foldl_cons, List.filter_cons, h1, ih]
      · by_cases h2 : it.clipColor = "Pink"
        · simp [List.foldl_cons, List.filter_cons, h1, h2, ih]
        · simp [List.foldl_cons, List.filter_cons, h1, h2, ih]

theorem scanTargets_eq_filter (tracks : List (List Item)) (src : Item) :
    scanTargets tracks src
      = tracks.flatten.filter
          (fun item => !decide (item = src) && decide (item.clipColor = "Pink")) := by
  suffices hgen : ∀ acc : List Item,
      tracks.foldl
          (fun acc trackItems =>
            trackItems.foldl
              (fun acc2 item =>
                if item = src then acc2
                else if item.clipColor = "Pink" then acc2 ++ [item]
                else acc2) acc) acc
        = acc ++ tracks.flatten.filter
            (fun item => !decide (item = src) && decide (item.clipColor = "Pink")) by
    simpa [scanTargets] using hgen []
  intro acc
  induction tracks generalizing acc with
  | nil => simp
  | cons tr rest ih =>
      simp only [List.foldl_cons]
      rw [scanTargets_inner, ih, List.flatten_cons, List.filter_append,
        List.append_assoc]

theorem src_not_mem_scanTargets (tracks : List (List Item)) (src : Item) :
    src ∉ scanTargets tracks src := by
  rw [scanTargets_eq_filter]
  intro hmem
  have h := (List.mem_filter.mp hmem).2
  simp at h

theorem scanTargets_eq_nil_of_no_pink (tracks : List (List Item)) (src : Item)
    (h : ∀ it ∈ tracks.flatten, it ≠ src → it.clipColor ≠ "Pink") :
    scanTargets tracks src = [] := by
  rw [scanTargets_eq_filter]
  apply List.filter_eq_nil_iff.mpr
  intro it hmem
  by_cases he : it = src
  · simp [he]
  · simp [he, h it hmem he]

/-! ## Claim C9: missing project is an unhandled exception -/

/-- C9: when the host connection succeeds but there is no current project,
`main` dies with an uncaught exception on `project.GetCurrentTimeline()`
(source line 186): it neither logs nor shows a report, and no destination is
ever reached. -/
theorem main_raises_without_project (h : Host)
    (h1 : h.resolveAvailable = true)
    (h2 : h.currentProject = none) :
    CopyTextStyle.main h =
      ⟨[], [], [], 0, false,
       some "AttributeError: NoneType object has no attribute GetCurrentTimeline"⟩
    ∧ ((CopyTextStyle.main h).exception).isSome = true
    ∧ (CopyTextStyle.main h).reportShown = false := by
  have hm : CopyTextStyle.main h =
      ⟨[], [], [], 0, false,
       some "AttributeError: NoneType object has no attribute GetCurrentTimeline"⟩ := by
    simp [CopyTextStyle.main, h1, h2]
  exact ⟨hm, by rw [hm]; rfl, by rw [hm]⟩

/-- Concrete host for the C9 witness: resolve available, no project. -/
def c9Host : Host := ⟨true, none⟩

/-- Witness for C9 at `c9Host`. -/
theorem main_raises_without_project_witness :
    CopyTextStyle.main c9Host =
      ⟨[], [], [], 0, false,
       some "AttributeError: NoneType object has no attribute GetCurrentTimeline"⟩ :=
  (main_raises_without_project c9Host rfl rfl).1

/-! ## Claim C5: settings-probe failure terminates before the scan -/

/-- C5: if the settings probe on the source tool finds no qualifying accessor,
`main` logs the fatal error, shows the report, and terminates before the
destination scan: the collected target list is empty, the success tally is
zero, and the only host calls issued in the entire run are the source-comp
accesses and page switches of the source setup — in particular no setter and
no `SetInput` is invoked on anything, so no destination node is mutated. -/
theorem main_aborts_on_settings_failure (h : Host) (proj : Project)
    (tl : Timeline) (src : Item) (comp : Comp) (st : Tool)
    (h1 : h.resolveAvailable = true)
    (h2 : h.currentProject = some proj)
    (h3 : proj.currentTimeline = some tl)
    (h4 : tl.currentVideoItem = some src)
    (h5 : sourceCompOf src = some comp)
    (h6 : find_textplus_tool (some comp) = some st)
    (h7 : get_tool_settings st = none) :
    CopyTextStyle.main h =
      ⟨["Source: " ++ src.name, "[Fatal Error] Could not retrieve settings."],
       sourceCompEvents src, [], 0, true, none⟩
    ∧ ∀ e ∈ (CopyTextStyle.main h).events,
        e = .compAccess src.name ∨ ∃ p, e = .openPage p := by
  have hm : CopyTextStyle.main h =
      ⟨["Source: " ++ src.name, "[Fatal Error] Could not retrieve settings."],
       sourceCompEvents src, [], 0, true, none⟩ := by
    simp [CopyTextStyle.main, h1, h2, h3, h4, h5, h6, h7]
  refine ⟨hm, ?_⟩
  rw [hm]
  intro e he
  exact sourceCompEvents_shape src e he

/-- Concrete source tool for the C5 witness: no settings accessor exists. -/
def c5Tool : Tool :=
  ⟨"SrcTool", some "T", .missing, .missing, .missing, false, false,
   ⟨none, false⟩, ⟨none, false⟩, false⟩

/-- Concrete source comp for the C5 witness. -/
def c5Comp : Comp := ⟨[c5Tool], []⟩

/-- Concrete source item for the C5 witness. -/
def c5Src : Item := ⟨"Src", "Orange", some c5Comp, none⟩

/-- Concrete timeline for the C5 witness. -/
def c5Tl : Timeline := ⟨some c5Src, [[c5Src]]⟩

/-- Concrete project for the C5 witness. -/
def c5Proj : Project := ⟨some c5Tl⟩

/-- Concrete host for the C5 witness. -/
def c5Host : Host := ⟨true, some c5Proj⟩

/-- Witness for C5 at `c5Host`. -/
theorem main_aborts_on_settings_failure_witness :
    CopyTextStyle.main c5Host =
      ⟨["Source: " ++ c5Src.name, "[Fatal Error] Could not retrieve settings."],
       sourceCompEvents c5Src, [], 0, true, none⟩ :=
  (main_aborts_on_settings_failure c5Host c5Proj c5Tl c5Src c5Comp c5Tool
    rfl rfl rfl rfl rfl rfl rfl).1

/-! ## Claim C6: empty target list short-circuits the run -/

/-- C6: when no timeline item other than the source has the target clip color
`Pink`, `main` logs the warning and terminates: the target list is empty, the
success tally is zero, and the only host calls of the whole run are the
source-setup comp accesses and page switches — no setter and no `SetInput`
is ever invoked, and no composition of any item other than the source is
accessed. -/
theorem main_warns_when_no_pink_targets (h : Host) (proj : Project)
    (tl : Timeline) (src : Item) (comp : Comp) (st : Tool) (ss : Val)
    (mth : String)
    (h1 : h.resolveAvailable = true)
    (h2 : h.currentProject = some proj)
    (h3 : proj.currentTimeline = some tl)
    (h4 : tl.currentVideoItem = some src)
    (h5 : sourceCompOf src = some comp)
    (h6 : find_textplus_tool (some comp) = some st)
    (h7 : get_tool_settings st = some (ss, mth))
    (h8 : ∀ it ∈ tl.tracks.flatten, it ≠ src → it.clipColor ≠ "Pink") :
    CopyTextStyle.main h =
      ⟨["Source: " ++ src.name,
        "[Success] Settings captured via " ++ sQuote mth,
        "[Warning] No " ++ sQuote "Pink" ++ " clips found."],
       sourceCompEvents src, [], 0, true, none⟩
    ∧ ∀ e ∈ (CopyTextStyle.main h).events,
        e = .compAccess src.name ∨ ∃ p, e = .openPage p := by
  have ht : scanTargets tl.tracks src = [] :=
    scanTargets_eq_nil_of_no_pink tl.tracks src h8
  have hm : CopyTextStyle.main h =
      ⟨["Source: " ++ src.name,
        "[Success] Settings captured via " ++ sQuote mth,
        "[Warning] No " ++ sQuote "Pink" ++ " clips found."],
       sourceCompEvents src, [], 0, true, none⟩ := by
    simp [CopyTextStyle.main, h1, h2, h3, h4, h5, h6, h7, ht]
  refine ⟨hm, ?_⟩
  rw [hm]
  intro e he
  exact sourceCompEvents_shape src e he

/-- Concrete qualifying settings value for the C6/C7 witnesses. -/
def c6Val : Val := Val.dict (.cons "Tools" (Val.dict .nil) .nil)

/-- Concrete source tool for the C6 witness: `GetSettings` qualifies. -/
def c6Tool : Tool :=
  ⟨"SrcTool", some "T", .returns c6Val, .missing, .missing, false, false,
   ⟨none, false⟩, ⟨none, false⟩, false⟩

/-- Concrete source comp for the C6 witness. -/
def c6Comp : Comp := ⟨[c6Tool], []⟩

/-- Concrete source item for the C6 witness. -/
def c6Src : Item := ⟨"Src", "Orange", some c6Comp, none⟩

/-- A non-pink second item for the C6 witness. -/
def c6Other : Item := ⟨"Other", "Blue", none, none⟩

/-- Concrete timeline for the C6 witness. -/
def c6Tl : Timeline := ⟨some c6Src, [[c6Src, c6Other]]⟩

/-- Concrete project for the C6 witness. -/
def c6Proj : Project := ⟨some c6Tl⟩

/-- Concrete host for the C6 witness. -/
def c6Host : Host := ⟨true, some c6Proj⟩

/-- Witness for C6 at `c6Host`. -/
theorem main_warns_when_no_pink_targets_witness :
    CopyTextStyle.main c6Host =
      ⟨["Source: " ++ c6Src.name,
        "[Success] Settings captured via " ++ sQuote "GetSettings",
        "[Warning] No " ++ sQuote "Pink" ++ " clips found."],
       sourceCompEvents c6Src, [], 0, true, none⟩ :=
  (main_warns_when_no_pink_targets c6Host c6Proj c6Tl c6Src c6Comp c6Tool
    c6Val "GetSettings" rfl rfl rfl rfl rfl rfl rfl (by decide)).1

/-! ## Claim C7: the destination list -/

/-- C7: whenever the run reaches the target scan, the collected destination
list is exactly the timeline items — walked in track order then in-track
order — whose clip color is `Pink` and which differ from the source item; in
particular the source item itself is never in the list, even when its own
clip color is `Pink`. -/
theorem main_targets_exclude_source (h : Host) (proj : Project)
    (tl : Timeline) (src : Item) (comp : Comp) (st : Tool) (ss : Val)
    (mth : String)
    (h1 : h.resolveAvailable = true)
    (h2 : h.currentProject = some proj)
    (h3 : proj.currentTimeline = some tl)
    (h4 : tl.currentVideoItem = some src)
    (h5 : sourceCompOf src = some comp)
    (h6 : find_textplus_tool (some comp) = some st)
    (h7 : get_tool_settings st = some (ss, mth)) :
    (CopyTextStyle.main h).targets = scanTargets tl.tracks src
    ∧ src ∉ (CopyTextStyle.main h).targets
    ∧ (CopyTextStyle.main h).targets
        = tl.tracks.flatten.filter
            (fun item => !decide (item = src) && decide (item.clipColor = "Pink")) := by
  have hmt : (CopyTextStyle.main h).targets = scanTargets tl.tracks src := by
    simp only [CopyTextStyle.main, h1, h2, h3, h4, h5, h6, h7, Bool.not_true,
      Bool.false_eq_true, if_false]
    split <;> rfl
  refine ⟨hmt, ?_, ?_⟩
  · rw [hmt]
    exact src_not_mem_scanTargets tl.tracks src
  · rw [hmt]
    exact scanTargets_eq_filter tl.tracks src

/-- A pink destination item for the C7 witness (its comp is irrelevant to the
scan itself). -/
def c7Pink : Item := ⟨"PinkClip", "Pink", none, none⟩

/-- Pink-colored source item for the C7 witness: even a pink source must not
appear in its own destination list. -/
def c7Src : Item := ⟨"Src", "Pink", some c6Comp, none⟩

/-- Concrete timeline for the C7 witness: the source (itself colored `Pink`)
and one pink destination. -/
def c7Tl : Timeline := ⟨some c7Src, [[c7Src, c7Pink]]⟩

/-- Concrete project for the C7 witness. -/
def c7Proj : Project := ⟨some c7Tl⟩

/-- Concrete host for the C7 witness. -/
def c7Host : Host := ⟨true, some c7Proj⟩

/-- Witness for C7 at `c7Host`. -/
theorem main_targets_exclude_source_witness :
    (CopyTextStyle.main c7Host).targets = scanTargets c7Tl.tracks c7Src
    ∧ c7Src ∉ (CopyTextStyle.main c7Host).targets :=
  ⟨(main_targets_exclude_source c7Host c7Proj c7Tl c7Src c6Comp c6Tool
      c6Val "GetSettings" rfl rfl rfl rfl rfl rfl rfl).1,
   (main_targets_exclude_source c7Host c7Proj c7Tl c7Src c6Comp c6Tool
      c6Val "GetSettings" rfl rfl rfl rfl rfl rfl rfl).2.1⟩
